import Mathlib

/-!
Verification of the convert4me conversion-job subsystem.

The definitions below are a shallow embedding of the TypeScript source:

* `src/convert4me/src/app/api/[[...path]]/route.ts` (the POST /convert
  handler with its background completion/cancellation/failure handlers,
  and the in-memory `conversionJobs` map),
* the cancel route and the progress route (`POST /cancel/{jobId}`,
  `GET /progress/{jobId}`),
* the SSE broadcaster (`sendProgressUpdate`),
* the format registry (`getPossibleOutputFormats`, `isConversionSupported`,
  `detectFileType`),
* the ffmpeg progress parsing in `convertVideo`, and
* `convertDocument` with its cascading tool fallbacks.

JavaScript `Date` values are modelled as `Nat` ticks, the `Map` registry as
an association list, file-system and subprocess effects as explicit boolean
parameters describing whether the corresponding external operation is
available / succeeds.
-/

/-- Job status values, from the union type `JobStatus` in route.ts. -/
inductive JobStatus where
  | pending
  | processing
  | completed
  | failed
  | cancelled
deriving DecidableEq, Repr

/-- String form of a status, as stored in the JS job record. -/
def statusToString : JobStatus → String
  | .pending => "pending"
  | .processing => "processing"
  | .completed => "completed"
  | .failed => "failed"
  | .cancelled => "cancelled"

/-- Mirror of the cancel route's check
`['completed', 'failed', 'cancelled'].includes(job.status)`. -/
def isTerminalStatus (s : JobStatus) : Bool :=
  ["completed", "failed", "cancelled"].contains (statusToString s)

/-- The `ConversionJob` record from route.ts (dates as `Nat` ticks). -/
structure ConversionJob where
  jobId : String
  originalFilename : String
  inputPath : String
  outputPath : Option String
  inputFormat : String
  outputFormat : String
  status : JobStatus
  progress : Int
  error : Option String
  createdAt : Nat
  completedAt : Option Nat
deriving DecidableEq, Repr

/-- The job record created by POST /convert (route.ts lines 211-220):
`status: 'processing', progress: 0`, no output path, no error. -/
def createJob (jobId originalFilename inputPath inputFormat outputFormat : String)
    (now : Nat) : ConversionJob :=
  { jobId := jobId
    originalFilename := originalFilename
    inputPath := inputPath
    outputPath := none
    inputFormat := inputFormat
    outputFormat := outputFormat
    status := .processing
    progress := 0
    error := none
    createdAt := now
    completedAt := none }

/-- The operations that mutate one job record after its creation:
the progress callback, the three mutually exclusive outcomes of the
background task in route.ts, and a POST /cancel request. -/
inductive JobOp where
  | progressUpd (p : Int)
  | bgComplete (path : String) (t : Nat)
  | bgCancelErr (t : Nat)
  | bgFail (msg : String)
  | cancelReq
deriving DecidableEq, Repr

/-- Apply one operation to a job record, each case mirroring its source block:

* `progressUpd`: route.ts 229-235, `job.progress = progress` (no status check);
* `bgComplete`: route.ts 259-270, sets completed/100/outputPath/completedAt;
* `bgCancelErr`: route.ts 275-285 (CancellationError branch), sets
  cancelled/completedAt, leaves `error` unset;
* `bgFail`: route.ts 287-296, sets failed and the error message
  (note: no `completedAt` assignment appears in this branch);
* `cancelReq`: the cancel route, which refuses terminal jobs and otherwise
  sets `job.status = 'cancelled'` only (no error, no completedAt). -/
def applyOp (job : ConversionJob) : JobOp → ConversionJob
  | .progressUpd p => { job with progress := p }
  | .bgComplete path t =>
      { job with status := .completed, progress := 100,
                 outputPath := some path, completedAt := some t }
  | .bgCancelErr t =>
      { job with status := .cancelled, completedAt := some t }
  | .bgFail msg =>
      { job with status := .failed, error := some msg }
  | .cancelReq =>
      if isTerminalStatus job.status then job
      else { job with status := .cancelled }

/-- A background-task outcome operation (at most one of these runs per job,
since the background async function settles exactly once). -/
def isBgOp : JobOp → Bool
  | .bgComplete _ _ => true
  | .bgCancelErr _ => true
  | .bgFail _ => true
  | _ => false

/-- Apply a sequence of operations in order. -/
def applyTrace (job : ConversionJob) (ops : List JobOp) : ConversionJob :=
  ops.foldl applyOp job

/-- A trace is feasible when it contains at most one background outcome,
which is what the single try/catch of the background task guarantees. -/
def feasibleTrace (ops : List JobOp) : Bool :=
  ops.countP isBgOp ≤ 1

-- Job registry: the in-memory Map, as an association list.

def Registry := List (String × ConversionJob)
deriving DecidableEq

/-- Mirror of `conversionJobs.get(jobId)`. -/
def lookupJob : Registry → String → Option ConversionJob
  | [], _ => none
  | (k, j) :: rest, jobId => if k = jobId then some j else lookupJob rest jobId

/-- Mirror of `conversionJobs.set(jobId, job)` (insert or overwrite). -/
def setJob : Registry → String → ConversionJob → Registry
  | [], jobId, job => [(jobId, job)]
  | (k, j) :: rest, jobId, job =>
      if k = jobId then (jobId, job) :: rest else (k, j) :: setJob rest jobId job

theorem lookupJob_setJob_self (reg : Registry) (jobId : String) (job : ConversionJob) :
    lookupJob (setJob reg jobId job) jobId = some job := by
  induction reg with
  | nil => simp [setJob, lookupJob]
  | cons kv rest ih =>
      obtain ⟨k, j⟩ := kv
      by_cases hk : k = jobId
      · simp [setJob, lookupJob, hk]
      · simp [setJob, lookupJob, hk, ih]

-- Format registry (second half of utils/videoConverter.ts: the converters
-- module with getPossibleOutputFormats / isConversionSupported /
-- detectFileType).

/-- One converter family's format table. -/
structure ConverterFormats where
  supportedInputFormats : List String
  possibleOutputFormats : List String

/-- `videoConverters` from the converters module. -/
def videoConverters : ConverterFormats :=
  { supportedInputFormats := ["mp4", "mov", "avi", "mkv", "wmv", "webm"]
    possibleOutputFormats := ["mp4", "mov", "avi", "mkv", "webm"] }

/-- `imageConverters` from the converters module. -/
def imageConverters : ConverterFormats :=
  { supportedInputFormats := ["jpg", "jpeg", "png", "gif", "webp", "tiff", "avif"]
    possibleOutputFormats := ["jpg", "jpeg", "png", "webp", "avif", "tiff"] }

/-- `documentConverters` from the converters module. -/
def documentConverters : ConverterFormats :=
  { supportedInputFormats := ["pdf", "docx"]
    possibleOutputFormats := ["pdf", "jpg", "jpeg", "png", "webp"] }

/-- The `converters` array. -/
def converters : List ConverterFormats :=
  [videoConverters, imageConverters, documentConverters]

/-- JS `Set.add` keeps first insertion and preserves insertion order. -/
def addUnique (acc : List String) (x : String) : List String :=
  if acc.contains x then acc else acc ++ [x]

/-- Mirror of `getPossibleOutputFormats`: collect, in converter order and
with Set-deduplication, the output formats of every converter family whose
input set contains `inputFormat`. -/
def getPossibleOutputFormats (inputFormat : String) : List String :=
  converters.foldl
    (fun acc c =>
      if c.supportedInputFormats.contains inputFormat then
        c.possibleOutputFormats.foldl addUnique acc
      else acc)
    []

/-- Mirror of `isConversionSupported`: some converter family supports both
the input and the output format. -/
def isConversionSupported (inputFormat outputFormat : String) : Bool :=
  converters.any (fun c =>
    c.supportedInputFormats.contains inputFormat &&
    c.possibleOutputFormats.contains outputFormat)

/-- ASCII embedding of JS `String.prototype.toLowerCase` on one character. -/
def lowerChar (c : Char) : Char :=
  if 'A' ≤ c ∧ c ≤ 'Z' then Char.ofNat (c.toNat + 32) else c

/-- Characters of a path after the last occurrence of `sep`; equals the whole
list when `sep` does not occur.  This is JS
`s.substring(s.lastIndexOf(sep) + 1)` (with `lastIndexOf = -1` giving the
whole string). -/
def afterLastChar (sep : Char) (l : List Char) : List Char :=
  (l.reverse.takeWhile (fun c => c ≠ sep)).reverse

/-- Mirror of `detectFileType`:
`filePath.substring(filePath.lastIndexOf('.') + 1).toLowerCase()`. -/
def detectFileType (filePath : String) : String :=
  String.mk ((afterLastChar '.' filePath.data).map lowerChar)

/-- Mirror of `filePath.split('/').pop() || 'unknown'` in the convert route. -/
def lastPathComponent (filePath : String) : String :=
  let piece := String.mk (afterLastChar '/' filePath.data)
  if piece = "" then "unknown" else piece

example : detectFileType "/uploads/photo.GIF" = "gif" := by decide
example : detectFileType "noext" = "noext" := by decide
example : lastPathComponent "/uploads/photo.gif" = "photo.gif" := by decide
example : getPossibleOutputFormats "gif" = ["jpg", "jpeg", "png", "webp", "avif", "tiff"] := by decide
example : getPossibleOutputFormats "docx" = ["pdf", "jpg", "jpeg", "png", "webp"] := by decide
example : isConversionSupported "gif" "docx" = false := by decide

-- HTTP route models.

/-- The serialized job view returned by the progress, cancel and download
routes (`jobStatus: { jobId, status, progress, ... }`). -/
structure JobView where
  jobId : String
  status : JobStatus
  progress : Int
  originalFilename : String
  inputFormat : String
  outputFormat : String
  error : Option String
  createdAt : Nat
  completedAt : Option Nat
deriving DecidableEq, Repr

/-- Serialize a job record the way the routes do. -/
def jobView (job : ConversionJob) : JobView :=
  { jobId := job.jobId
    status := job.status
    progress := job.progress
    originalFilename := job.originalFilename
    inputFormat := job.inputFormat
    outputFormat := job.outputFormat
    error := job.error
    createdAt := job.createdAt
    completedAt := job.completedAt }

/-- Response of POST /convert. -/
structure ConvertResp where
  statusCode : Nat
  success : Bool
  message : String
  supportedFormats : Option (List String)
  jobId : Option String
deriving DecidableEq, Repr

/-- The POST /convert handler's own effects (route.ts 165-305): validation,
format check, job creation, and the `{ jobId }` response.  This excludes
the background IIFE entirely; note that the IIFE's body also runs
synchronously up to its first await before the response is returned, so the
registry state a client observes right after the response is
`registryAtResponse` (this handler's result plus the synchronous progress
prefix), not `convertPost`'s second component alone.  The rest of the
background task is modelled by `JobOp`/`bgFinish`.  `fileExists` stands for
`existsSync`; `newJobId` for the `uuidv4()` result; `now` for `new Date()`. -/
def convertPost (reg : Registry) (filePath outputFormat : String)
    (fileExists : String → Bool) (newJobId : String) (now : Nat) :
    ConvertResp × Registry :=
  if filePath = "" ∨ outputFormat = "" then
    ({ statusCode := 400, success := false,
       message := "File path and output format are required",
       supportedFormats := none, jobId := none }, reg)
  else if fileExists filePath = false then
    ({ statusCode := 404, success := false, message := "File not found",
       supportedFormats := none, jobId := none }, reg)
  else
    let inputFormat := detectFileType filePath
    if isConversionSupported inputFormat outputFormat = false then
      ({ statusCode := 400, success := false,
         message := "Conversion from " ++ inputFormat ++ " to " ++ outputFormat
           ++ " is not supported",
         supportedFormats := some (getPossibleOutputFormats inputFormat),
         jobId := none }, reg)
    else
      let job := createJob newJobId (lastPathComponent filePath) filePath
        inputFormat outputFormat now
      ({ statusCode := 200, success := true, message := "Conversion started",
         supportedFormats := none, jobId := some newJobId },
       setJob reg newJobId job)

/-- Response of GET /progress/jobId. -/
structure ProgressResp where
  statusCode : Nat
  success : Bool
  message : Option String
  jobStatus : Option JobView
deriving DecidableEq, Repr

/-- The GET /progress/jobId route: 400 on empty id, 404 on unknown job,
otherwise the serialized record. -/
def progressGet (reg : Registry) (jobId : String) : ProgressResp :=
  if jobId = "" then
    { statusCode := 400, success := false,
      message := some "Job ID is required", jobStatus := none }
  else
    match lookupJob reg jobId with
    | none =>
        { statusCode := 404, success := false,
          message := some ("Job with ID " ++ jobId ++ " not found"),
          jobStatus := none }
    | some job =>
        { statusCode := 200, success := true, message := none,
          jobStatus := some (jobView job) }

/-- Response of POST /cancel/jobId. -/
structure CancelResp where
  statusCode : Nat
  success : Bool
  message : String
  fileDeleted : Option Bool
  jobStatus : Option JobView
deriving DecidableEq, Repr

/-- The POST /cancel/jobId route.  `processFound` models whether
`activeConversionProcesses.get(jobId)` held a live process handle and its
`kill()` call did not throw; `fileDeleted` models the `deleteFile` result.
On a terminal job it answers 400 `"Job is already <status>"` and performs no
mutation; otherwise it sets `status = 'cancelled'` (and nothing else) and
stores the record back. -/
def cancelPost (reg : Registry) (jobId : String)
    (processFound fileDeleted : Bool) : CancelResp × Registry :=
  if jobId = "" then
    ({ statusCode := 400, success := false, message := "Job ID is required",
       fileDeleted := none, jobStatus := none }, reg)
  else
    match lookupJob reg jobId with
    | none =>
        ({ statusCode := 404, success := false,
           message := "Job with ID " ++ jobId ++ " not found",
           fileDeleted := none, jobStatus := none }, reg)
    | some job =>
        if isTerminalStatus job.status then
          ({ statusCode := 400, success := false,
             message := "Job is already " ++ statusToString job.status,
             fileDeleted := none, jobStatus := none }, reg)
        else
          let job' := { job with status := JobStatus.cancelled }
          ({ statusCode := 200, success := true,
             message := if processFound then "Conversion cancelled successfully"
               else "Job marked as cancelled, but process was not found",
             fileDeleted := some fileDeleted,
             jobStatus := some (jobView job') },
           setJob reg jobId job')

-- The synchronous prefix of the background task.  The IIFE in route.ts 226
-- runs on the same turn as the handler until its first await, so the
-- progress callbacks an adapter issues before first suspending have already
-- been applied to the job record when the POST response is returned.

/-- Progress values `convertVideo` reports before its first suspension:
none — its promise executor only spawns ffmpeg and registers stderr/close
handlers, and every `progressCallback` call sits inside those asynchronous
handlers. -/
def convertVideoSyncProgress : List Int := []

/-- Progress values `convertImage` reports before its first await:
`progressCallback(10)` (imageConverter.ts line 23) and `progressCallback(50)`
(line 48) both run before the first `await image....toFile(...)`. -/
def convertImageSyncProgress : List Int := [10, 50]

/-- Progress values `convertDocument` reports before its first await or its
synchronous throw, for inputs that take neither pdf branch (a docx path):
exactly `progressCallback(10)` (documentConverter.ts line 28); the
not-supported throw at line 157 follows with no further callback.  (For
pdf inputs the synchronous prefix starts 10, 20, 30 and its tail depends on
the installed tools; no claim needs its exact value.) -/
def convertDocumentNonPdfSyncProgress : List Int := [10]

/-- The job record as it stands at the moment POST /convert's response is
returned: the freshly created record after the background task's
synchronous progress prefix (`syncProgress`, one value per
`progressCallback` call) has been written through `conversionJobs.set`. -/
def jobAtResponse (jobId originalFilename inputPath inputFormat outputFormat : String)
    (now : Nat) (syncProgress : List Int) : ConversionJob :=
  applyTrace (createJob jobId originalFilename inputPath inputFormat outputFormat now)
    (syncProgress.map JobOp.progressUpd)

/-- The registry at the moment POST /convert's response is returned: when a
job was created (the response carries a jobId), the background task's
synchronous progress prefix has already been applied to that record;
otherwise no background task ran. -/
def registryAtResponse (reg : Registry) (filePath outputFormat : String)
    (fileExists : String → Bool) (newJobId : String) (now : Nat)
    (syncProgress : List Int) : Registry :=
  match (convertPost reg filePath outputFormat fileExists newJobId now).1.jobId with
  | some jid =>
      setJob (convertPost reg filePath outputFormat fileExists newJobId now).2 jid
        (jobAtResponse jid (lastPathComponent filePath) filePath
          (detectFileType filePath) outputFormat now syncProgress)
  | none => (convertPost reg filePath outputFormat fileExists newJobId now).2

-- SSE broadcaster (sendProgressUpdate in the socket route).

/-- One registered SSE connection: `fails` models `controller.enqueue`
throwing for this observer, `received` the events it has been sent. -/
structure SseController where
  fails : Bool
  received : List (String × Int)
deriving DecidableEq, Repr

/-- Delivery of one `{ event: 'progress', jobId, progress }` payload to one
controller, with the per-observer try/catch: a throwing controller is left
as-is (the error is logged) and iteration continues. -/
def enqueueProgressEvent (jobId : String) (progress : Int)
    (c : SseController) : SseController :=
  if c.fails then c
  else { c with received := c.received ++ [(jobId, progress)] }

/-- Mirror of `sendProgressUpdate`: `activeControllers.forEach(...)` with a
try/catch around each individual `enqueue`. -/
def sendProgressUpdate (controllers : List SseController)
    (jobId : String) (progress : Int) : List SseController :=
  controllers.map (enqueueProgressEvent jobId progress)

-- ffmpeg progress parsing (convertVideo stderr handler).

/-- Timestamp fields parsed by the Duration/time regexes, in seconds:
`h * 3600 + m * 60 + s`. -/
def timestampSeconds (h m s : Nat) : Nat :=
  h * 3600 + m * 60 + s

/-- `Math.round((currentSeconds / durationSeconds) * 100)` for nonnegative
operands, as exact integer arithmetic: round half away from zero equals
`⌊(100·c/d) + 1/2⌋ = (200·c + d) / (2·d)` in Nat division. -/
def jsRoundRatio (currentSeconds durationSeconds : Nat) : Nat :=
  (200 * currentSeconds + durationSeconds) / (2 * durationSeconds)

/-- The progress value convertVideo passes to `progressCallback` (and to
`sendProgressUpdate`) when a stderr chunk matches both the
`Duration: hh:mm:ss.cc` and the `time=hh:mm:ss.cc` patterns; `none` when the
`durationSeconds > 0` guard fails and no callback happens.  The source
computes `Math.round((currentSeconds / durationSeconds) * 100)` with no
further clamping. -/
def ffmpegChunkProgress (dh dm ds th tm ts : Nat) : Option Nat :=
  let durationSeconds := timestampSeconds dh dm ds
  let currentSeconds := timestampSeconds th tm ts
  if durationSeconds > 0 then
    some (jsRoundRatio currentSeconds durationSeconds)
  else none

example : ffmpegChunkProgress 0 0 2 0 0 1 = some 50 := by decide
example : ffmpegChunkProgress 0 0 1 0 0 2 = some 200 := by decide

-- Document converter (utils/documentConverter.ts).

/-- Availability and outcome of the external tools `convertDocument` may
shell out to.  The `...Avail` fields model `isCommandAvailable`; the `...Ok`
fields model whether the corresponding `execSync` invocation succeeds and
produces usable files; `pageCountResult` is the value `getPdfPageCount`
returns when ghostscript is available (the source defaults it to 1 on any
counting failure); `multiPageThrows` models any exception escaping
`processMultiPagePdf` (file-system or archiving errors), which the outer
catch of `convertDocument` turns into a fallback image. -/
structure ToolEnv where
  pdftoppmAvail : Bool
  gsAvail : Bool
  pdfimagesAvail : Bool
  convertAvail : Bool
  wkhtmltoimageAvail : Bool
  zipAvail : Bool
  tarAvail : Bool
  gzipAvail : Bool
  pdftoppmOk : Bool
  pdftoppmAltOk : Bool
  gsOk : Bool
  pdfimagesOk : Bool
  convertOk : Bool
  wkhtmltoimageOk : Bool
  zipOk : Bool
  tarGzipOk : Bool
  pageCountResult : Nat
  multiPageThrows : Bool
deriving DecidableEq, Repr

/-- Content of the output file `convertDocument` produces. -/
inductive FileContent where
  | copiedInput
  | toolMade (tool : String)
  | pagesArchive (method : String)
  | rawBytes (bytes : List Nat)
deriving DecidableEq, Repr

/-- Error type of the converter adapters, mirroring the distinction the
background task makes between `CancellationError` and ordinary errors. -/
inductive ConvError where
  | cancellation
  | err (msg : String)
deriving DecidableEq, Repr

/-- The image formats `convertDocument` accepts as targets
(`const imageFormats = ['jpg', 'jpeg', 'png', 'webp']`). -/
def documentImageFormats : List String :=
  ["jpg", "jpeg", "png", "webp"]

/-- Mirror of `inputPath.toLowerCase().endsWith('.pdf')`. -/
def lowerEndsWithPdf (inputPath : String) : Bool :=
  List.isSuffixOf (".pdf".data) (inputPath.data.map lowerChar)

/-- Characters before the last `'.'` of a name, the whole name when it has
no dot: the model of `basename(inputPath, extname(inputPath))` applied to
the path's last component (Node's dot-file corner cases are not modelled;
no claim depends on them). -/
def stripLastExt (l : List Char) : List Char :=
  if l.contains '.' then
    ((l.reverse.dropWhile (fun c => c ≠ '.')).drop 1).reverse
  else l

/-- Mirror of `fileBaseName = basename(inputPath, extname(inputPath))`. -/
def fileBaseName (inputPath : String) : String :=
  String.mk (stripLastExt (afterLastChar '/' inputPath.data))

/-- Output path `join(outputDir, fileBaseName + '.' + outputFormat)` with
`outputDir = join(process.cwd(), 'output')` rendered as `"output/"`. -/
def mkOutputPath (inputPath outputFormat : String) : String :=
  "output/" ++ fileBaseName inputPath ++ "." ++ outputFormat

/-- Mirror of Node's `extname(path)`: the last-dot suffix of the path's last
component, including the dot, or `""` when there is none (dot-file corner
cases are not modelled; no claim depends on them). -/
def extnameOf (p : String) : String :=
  let base := afterLastChar '/' p.data
  if base.contains '.' then String.mk ('.' :: afterLastChar '.' base) else ""

/-- Mirror of `tryPdfToImageConversion`'s cascade, at the granularity of
which tool family succeeds: pdftoppm (first and alternative invocation
styles; every found-files path inside ends in a successful copy), then
ghostscript (whose webp branch additionally needs ImageMagick), then
pdfimages.  Returns the boolean the source returns. -/
def tryPdfToImageConversion (env : ToolEnv) (outputFormat : String) : Bool :=
  if env.pdftoppmAvail && env.pdftoppmOk then true
  else if env.pdftoppmAvail && env.pdftoppmAltOk then true
  else if env.gsAvail && env.gsOk &&
      (["jpg", "jpeg", "png"].contains outputFormat ||
        (outputFormat = "webp" && env.convertAvail)) then true
  else if env.pdfimagesAvail && env.pdfimagesOk then true
  else false

/-- Mirror of `getMinimalValidImageBytes`: the statically-known 1x1 images,
with the source's default of PNG for unrecognized formats. -/
def getMinimalValidImageBytes (format : String) : List Nat :=
  if format = "jpg" ∨ format = "jpeg" then
    [0xFF, 0xD8, 0xFF, 0xE0, 0x00, 0x10, 0x4A, 0x46, 0x49, 0x46, 0x00, 0x01,
     0x01, 0x01, 0x00, 0x48, 0x00, 0x48, 0x00, 0x00,
     0xFF, 0xDB, 0x00, 0x43, 0x00, 0xFF, 0xFF, 0xFF, 0xFF, 0xFF, 0xFF, 0xFF,
     0xFF, 0xFF, 0xFF, 0xFF, 0xFF, 0xFF, 0xFF, 0xFF,
     0xFF, 0xFF, 0xFF, 0xFF, 0xFF, 0xFF, 0xFF, 0xFF, 0xFF, 0xFF, 0xFF, 0xFF,
     0xFF, 0xFF, 0xFF, 0xFF, 0xFF, 0xFF, 0xFF, 0xFF,
     0xFF, 0xFF, 0xFF, 0xFF, 0xFF, 0xFF, 0xFF, 0xFF, 0xFF, 0xFF, 0xFF, 0xFF,
     0xFF, 0xFF, 0xFF, 0xFF, 0xFF, 0xFF, 0xFF, 0xFF,
     0xFF, 0xFF, 0xFF, 0xFF, 0xFF, 0xFF, 0xFF, 0xFF, 0xFF, 0xFF, 0xFF, 0xC2,
     0x00, 0x0B, 0x08, 0x00, 0x01, 0x00, 0x01, 0x01,
     0x01, 0x11, 0x00, 0xFF, 0xC4, 0x00, 0x14, 0x10, 0x01, 0x00, 0x00, 0x00,
     0x00, 0x00, 0x00, 0x00, 0x00, 0x00, 0x00, 0x00,
     0x00, 0x00, 0x00, 0x00, 0x00, 0xFF, 0xDA, 0x00, 0x08, 0x01, 0x01, 0x00,
     0x01, 0x3F, 0x10]
  else if format = "png" then
    [0x89, 0x50, 0x4E, 0x47, 0x0D, 0x0A, 0x1A, 0x0A, 0x00, 0x00, 0x00, 0x0D,
     0x49, 0x48, 0x44, 0x52, 0x00, 0x00, 0x00, 0x01,
     0x00, 0x00, 0x00, 0x01, 0x08, 0x02, 0x00, 0x00, 0x00, 0x90, 0x77, 0x53,
     0xDE, 0x00, 0x00, 0x00, 0x0C, 0x49, 0x44, 0x41,
     0x54, 0x08, 0xD7, 0x63, 0xF8, 0xCF, 0xC0, 0x00, 0x00, 0x03, 0x01, 0x01,
     0x00, 0x18, 0xDD, 0x8D, 0xB0, 0x00, 0x00, 0x00,
     0x00, 0x49, 0x45, 0x4E, 0x44, 0xAE, 0x42, 0x60, 0x82]
  else if format = "webp" then
    [0x52, 0x49, 0x46, 0x46, 0x1A, 0x00, 0x00, 0x00, 0x57, 0x45, 0x42, 0x50,
     0x56, 0x50, 0x38, 0x4C, 0x0D, 0x00, 0x00, 0x00,
     0x2F, 0x00, 0x00, 0x00, 0x00, 0x00, 0x00, 0x00, 0x00]
  else
    [0x89, 0x50, 0x4E, 0x47, 0x0D, 0x0A, 0x1A, 0x0A, 0x00, 0x00, 0x00, 0x0D,
     0x49, 0x48, 0x44, 0x52, 0x00, 0x00, 0x00, 0x01,
     0x00, 0x00, 0x00, 0x01, 0x08, 0x02, 0x00, 0x00, 0x00, 0x90, 0x77, 0x53,
     0xDE, 0x00, 0x00, 0x00, 0x0C, 0x49, 0x44, 0x41,
     0x54, 0x08, 0xD7, 0x63, 0xF8, 0xCF, 0xC0, 0x00, 0x00, 0x03, 0x01, 0x01,
     0x00, 0x18, 0xDD, 0x8D, 0xB0, 0x00, 0x00, 0x00,
     0x00, 0x49, 0x45, 0x4E, 0x44, 0xAE, 0x42, 0x60, 0x82]

/-- Mirror of `createFallbackImage`: wkhtmltoimage first, then ImageMagick
(gradient or solid), and finally the statically-known minimal image bytes;
returns the content the output file ends up with. -/
def createFallbackImageContent (env : ToolEnv) (outputFormat : String) :
    FileContent :=
  if env.wkhtmltoimageAvail && env.wkhtmltoimageOk then
    .toolMade "wkhtmltoimage"
  else if env.convertAvail && env.convertOk then
    .toolMade "convert"
  else
    .rawBytes (getMinimalValidImageBytes outputFormat)

/-- The archiving cascade of `createZipFromImagesUsingCmd`: the system `zip`,
then `tar`+`gzip`, then the concatenated-file `createSimpleZip` packaging. -/
def archivePagesMethod (env : ToolEnv) : String :=
  if env.zipAvail && env.zipOk then "zip"
  else if env.tarAvail && env.gzipAvail && env.tarGzipOk then "tar-gzip"
  else "concatenated"

/-- Mirror of `processMultiPagePdf` at page-bundle granularity: page
extraction always produces one image per page (per-page fallbacks fill the
gaps), the bundle is archived by `archivePagesMethod`, and any exception in
between (`multiPageThrows`) propagates to `convertDocument`'s catch. -/
def processMultiPagePdf (env : ToolEnv) : Except ConvError FileContent :=
  if env.multiPageThrows then .error (.err "Error processing multi-page PDF")
  else .ok (.pagesArchive (archivePagesMethod env))

/-- Mirror of `convertDocument` (documentConverter.ts 20-162) for one input:

* same-format PDF passthrough copies the file;
* PDF to image runs the page-count / single- or multi-page logic inside a
  try whose catch always falls back to `createFallbackImage` and still
  returns the output path;
* everything else throws
  `Conversion from <ext> to <format> is not supported yet`.

`extractAllPages` is the option's value after its `!== undefined` default
(the source defaults it to `true`). -/
def convertDocument (env : ToolEnv) (inputPath outputFormat : String)
    (extractAllPages : Bool) : Except ConvError (String × FileContent) :=
  if outputFormat = "pdf" ∧ lowerEndsWithPdf inputPath then
    .ok (mkOutputPath inputPath "pdf", .copiedInput)
  else if documentImageFormats.contains outputFormat ∧ lowerEndsWithPdf inputPath then
    if extractAllPages ∧ (if env.gsAvail then env.pageCountResult else 1) > 1 then
      match processMultiPagePdf env with
      | .ok content => .ok (mkOutputPath inputPath "zip", content)
      | .error _ =>
          .ok (mkOutputPath inputPath outputFormat,
               createFallbackImageContent env outputFormat)
    else
      if tryPdfToImageConversion env outputFormat then
        .ok (mkOutputPath inputPath outputFormat, .toolMade "pdf-to-image")
      else
        .ok (mkOutputPath inputPath outputFormat,
             createFallbackImageContent env outputFormat)
  else
    .error (.err ("Conversion from " ++ extnameOf inputPath ++ " to "
      ++ outputFormat ++ " is not supported yet"))

/-- The tail of the background task in route.ts (lines 259-297): a resolved
conversion marks the job completed, a `CancellationError` marks it
cancelled, any other rejection marks it failed. -/
def bgFinish (job : ConversionJob) (result : Except ConvError (String × FileContent))
    (t : Nat) : ConversionJob :=
  match result with
  | .ok (path, _) => applyOp job (.bgComplete path t)
  | .error .cancellation => applyOp job (.bgCancelErr t)
  | .error (.err m) => applyOp job (.bgFail m)

/-- Every probed tool reported unavailable. -/
def allToolsUnavailable (env : ToolEnv) : Bool :=
  !env.pdftoppmAvail && !env.gsAvail && !env.pdfimagesAvail &&
  !env.convertAvail && !env.wkhtmltoimageAvail

-- Helper lemmas about single operations.

theorem applyOp_nonbg_error (job : ConversionJob) (op : JobOp)
    (h : isBgOp op = false) : (applyOp job op).error = job.error := by
  cases op with
  | progressUpd p => rfl
  | cancelReq =>
      by_cases ht : isTerminalStatus job.status = true <;> simp [applyOp, ht]
  | bgComplete path t => simp [isBgOp] at h
  | bgCancelErr t => simp [isBgOp] at h
  | bgFail m => simp [isBgOp] at h

theorem applyOp_nonbg_status_of_terminal (job : ConversionJob) (op : JobOp)
    (h : isBgOp op = false) (ht : isTerminalStatus job.status = true) :
    (applyOp job op).status = job.status := by
  cases op with
  | progressUpd p => rfl
  | cancelReq => simp [applyOp, ht]
  | bgComplete path t => simp [isBgOp] at h
  | bgCancelErr t => simp [isBgOp] at h
  | bgFail m => simp [isBgOp] at h

/-- After the single background outcome has run, the job is terminal and the
remaining feasible operations keep the status and the error field fixed. -/
theorem applyTrace_after_bg (ops : List JobOp) :
    ∀ job : ConversionJob, ops.countP isBgOp = 0 →
      isTerminalStatus job.status = true →
      (job.error.isSome = true → job.status = JobStatus.failed) →
      isTerminalStatus (applyTrace job ops).status = true ∧
      ((applyTrace job ops).error.isSome = true →
        (applyTrace job ops).status = JobStatus.failed) := by
  induction ops with
  | nil => intro job _ ht he; exact ⟨ht, he⟩
  | cons op rest ih =>
      intro job hcnt ht he
      have hsplit : isBgOp op = false ∧ rest.countP isBgOp = 0 := by
        by_cases hb : isBgOp op = true
        · exfalso
          simp [List.countP_cons, hb] at hcnt
        · exact ⟨by simpa using hb, by simpa [List.countP_cons, hb] using hcnt⟩
      have hst := applyOp_nonbg_status_of_terminal job op hsplit.1 ht
      have herr := applyOp_nonbg_error job op hsplit.1
      have ht' : isTerminalStatus (applyOp job op).status = true := by
        rw [hst]; exact ht
      have he' : (applyOp job op).error.isSome = true →
          (applyOp job op).status = JobStatus.failed := by
        intro hs
        rw [hst]; exact he (by rw [herr] at hs; exact hs)
      simpa [applyTrace] using ih (applyOp job op) hsplit.2 ht' he'

/-- Invariant from job creation: as long as at most one background outcome
occurs, a populated `error` field implies status `failed`. -/
theorem applyTrace_error_invariant (ops : List JobOp) :
    ∀ job : ConversionJob, job.error = none → ops.countP isBgOp ≤ 1 →
      ((applyTrace job ops).error.isSome = true →
        (applyTrace job ops).status = JobStatus.failed) := by
  induction ops with
  | nil => intro job he _ hs; simp [applyTrace, he] at hs
  | cons op rest ih =>
      intro job he hcnt
      by_cases hb : isBgOp op = true
      · have hrest : rest.countP isBgOp = 0 := by
          have : rest.countP isBgOp + 1 ≤ 1 := by
            simpa [List.countP_cons, hb] using hcnt
          omega
        have hgood : isTerminalStatus (applyOp job op).status = true ∧
            ((applyOp job op).error.isSome = true →
              (applyOp job op).status = JobStatus.failed) := by
          cases op with
          | progressUpd p => simp [isBgOp] at hb
          | cancelReq => simp [isBgOp] at hb
          | bgComplete path t =>
              refine ⟨by simp [applyOp, isTerminalStatus, statusToString], ?_⟩
              intro hs
              simp [applyOp, he] at hs
          | bgCancelErr t =>
              refine ⟨by simp [applyOp, isTerminalStatus, statusToString], ?_⟩
              intro hs
              simp [applyOp, he] at hs
          | bgFail m =>
              exact ⟨by simp [applyOp, isTerminalStatus, statusToString],
                fun _ => by simp [applyOp]⟩
        have := applyTrace_after_bg rest (applyOp job op) hrest hgood.1 hgood.2
        simpa [applyTrace] using this.2
      · have hb' : isBgOp op = false := by simpa using hb
        have he' : (applyOp job op).error = none := by
          rw [applyOp_nonbg_error job op hb']; exact he
        have hcnt' : rest.countP isBgOp ≤ 1 := by
          have : rest.countP isBgOp ≤ rest.countP isBgOp + (if isBgOp op then 1 else 0) := by
            split <;> omega
          calc rest.countP isBgOp
              ≤ (op :: rest).countP isBgOp := by
                simp only [List.countP_cons]
                exact this
            _ ≤ 1 := hcnt
        simpa [applyTrace] using ih (applyOp job op) he' hcnt'

/-- C9: over every feasible operation sequence on a freshly created job
(any number of progress callbacks and cancel requests, at most one
background outcome), the `error` field is populated only when the status is
`failed`; in particular a job whose status is `cancelled` — via the
CancellationError branch or via the cancel endpoint — has no error set. -/
theorem C9_error_only_when_failed (jobId fn ip ifmt ofmt : String) (now : Nat)
    (ops : List JobOp) (h : feasibleTrace ops = true) :
    ((applyTrace (createJob jobId fn ip ifmt ofmt now) ops).error.isSome = true →
      (applyTrace (createJob jobId fn ip ifmt ofmt now) ops).status = JobStatus.failed) ∧
    ((applyTrace (createJob jobId fn ip ifmt ofmt now) ops).status = JobStatus.cancelled →
      (applyTrace (createJob jobId fn ip ifmt ofmt now) ops).error = none) := by
  have hc : ops.countP isBgOp ≤ 1 := by
    simpa [feasibleTrace, decide_eq_true_eq] using h
  have hinv := applyTrace_error_invariant ops
    (createJob jobId fn ip ifmt ofmt now) rfl hc
  refine ⟨hinv, ?_⟩
  intro hcanc
  cases herr : (applyTrace (createJob jobId fn ip ifmt ofmt now) ops).error with
  | none => rfl
  | some m =>
      have : (applyTrace (createJob jobId fn ip ifmt ofmt now) ops).status
          = JobStatus.failed := hinv (by simp [herr])
      rw [hcanc] at this
      exact absurd this (by simp)

/-- Witness for C9 at a concrete trace: a progress update, a user
cancellation, and a cancelled background outcome. -/
theorem C9_error_only_when_failed_witness :
    feasibleTrace [JobOp.progressUpd 30, JobOp.cancelReq, JobOp.bgCancelErr 5] = true ∧
    (((applyTrace (createJob "j9" "a.mp4" "/uploads/a.mp4" "mp4" "webm" 1)
        [JobOp.progressUpd 30, JobOp.cancelReq, JobOp.bgCancelErr 5]).error.isSome = true →
      (applyTrace (createJob "j9" "a.mp4" "/uploads/a.mp4" "mp4" "webm" 1)
        [JobOp.progressUpd 30, JobOp.cancelReq, JobOp.bgCancelErr 5]).status = JobStatus.failed) ∧
    ((applyTrace (createJob "j9" "a.mp4" "/uploads/a.mp4" "mp4" "webm" 1)
        [JobOp.progressUpd 30, JobOp.cancelReq, JobOp.bgCancelErr 5]).status = JobStatus.cancelled →
      (applyTrace (createJob "j9" "a.mp4" "/uploads/a.mp4" "mp4" "webm" 1)
        [JobOp.progressUpd 30, JobOp.cancelReq, JobOp.bgCancelErr 5]).error = none)) :=
  ⟨by decide,
   C9_error_only_when_failed "j9" "a.mp4" "/uploads/a.mp4" "mp4" "webm" 1
     [JobOp.progressUpd 30, JobOp.cancelReq, JobOp.bgCancelErr 5] (by decide)⟩

-- C1: terminal statuses and later operations.

/-- C1 counterexample: the claim says that once a job's status is terminal
no later operation changes the record.  On the code, a job cancelled through
the cancel endpoint (terminal status `cancelled`) is still mutated by a
later progress callback, and the background task's completion handler then
moves its status from `cancelled` to `completed` — a feasible sequence with
a single background outcome. -/
theorem C1_terminal_freeze_cex :
    feasibleTrace [JobOp.cancelReq, JobOp.progressUpd 55,
      JobOp.bgComplete "output/clip.webm" 9] = true ∧
    isTerminalStatus (applyTrace
      (createJob "j1" "clip.mp4" "/uploads/clip.mp4" "mp4" "webm" 3)
      [JobOp.cancelReq]).status = true ∧
    (applyTrace (createJob "j1" "clip.mp4" "/uploads/clip.mp4" "mp4" "webm" 3)
      [JobOp.cancelReq]).progress = 0 ∧
    (applyTrace (createJob "j1" "clip.mp4" "/uploads/clip.mp4" "mp4" "webm" 3)
      [JobOp.cancelReq, JobOp.progressUpd 55]).progress = 55 ∧
    (applyTrace (createJob "j1" "clip.mp4" "/uploads/clip.mp4" "mp4" "webm" 3)
      [JobOp.cancelReq]).status = JobStatus.cancelled ∧
    (applyTrace (createJob "j1" "clip.mp4" "/uploads/clip.mp4" "mp4" "webm" 3)
      [JobOp.cancelReq, JobOp.progressUpd 55,
        JobOp.bgComplete "output/clip.webm" 9]).status = JobStatus.completed := by
  decide

/-- C1 amended: only the cancel endpoint checks for a terminal status; a
cancellation request against a terminal job record leaves it completely
unchanged.  The progress callback and the background task's handlers
perform no such check and can still mutate a terminal record (see the
counterexample). -/
theorem C1_cancel_noop_on_terminal (job : ConversionJob)
    (h : isTerminalStatus job.status = true) :
    applyOp job JobOp.cancelReq = job := by
  simp [applyOp, h]

/-- Witness for the amended C1 on a concrete completed job. -/
theorem C1_cancel_noop_on_terminal_witness :
    isTerminalStatus (JobStatus.completed) = true ∧
    applyOp
      { jobId := "jw1", originalFilename := "a.png", inputPath := "/uploads/a.png",
        outputPath := some "output/a.webp", inputFormat := "png",
        outputFormat := "webp", status := JobStatus.completed, progress := 100,
        error := none, createdAt := 2, completedAt := some 8 }
      JobOp.cancelReq =
      { jobId := "jw1", originalFilename := "a.png", inputPath := "/uploads/a.png",
        outputPath := some "output/a.webp", inputFormat := "png",
        outputFormat := "webp", status := JobStatus.completed, progress := 100,
        error := none, createdAt := 2, completedAt := some 8 } :=
  ⟨by decide,
   C1_cancel_noop_on_terminal
     { jobId := "jw1", originalFilename := "a.png", inputPath := "/uploads/a.png",
       outputPath := some "output/a.webp", inputFormat := "png",
       outputFormat := "webp", status := JobStatus.completed, progress := 100,
       error := none, createdAt := 2, completedAt := some 8 }
     (by decide)⟩

-- C2: cancelling an already-terminal job.

/-- C2: a cancel request against a job whose status is terminal gets an
HTTP 400 response whose message is `Job is already <status>`, and the
registry — hence the job record with all its fields — is unchanged. -/
theorem C2_cancel_terminal_rejected (reg : Registry) (jobId : String)
    (job : ConversionJob) (processFound fileDeleted : Bool)
    (hid : jobId ≠ "") (hjob : lookupJob reg jobId = some job)
    (hterm : isTerminalStatus job.status = true) :
    cancelPost reg jobId processFound fileDeleted =
      ({ statusCode := 400, success := false,
         message := "Job is already " ++ statusToString job.status,
         fileDeleted := none, jobStatus := none }, reg) := by
  simp [cancelPost, hid, hjob, hterm]

/-- Witness for C2: cancelling a concrete completed job. -/
theorem C2_cancel_terminal_rejected_witness :
    lookupJob
      [("done1",
        { jobId := "done1", originalFilename := "a.png",
          inputPath := "/uploads/a.png", outputPath := some "output/a.webp",
          inputFormat := "png", outputFormat := "webp",
          status := JobStatus.completed, progress := 100, error := none,
          createdAt := 2, completedAt := some 8 })] "done1" =
      some
        { jobId := "done1", originalFilename := "a.png",
          inputPath := "/uploads/a.png", outputPath := some "output/a.webp",
          inputFormat := "png", outputFormat := "webp",
          status := JobStatus.completed, progress := 100, error := none,
          createdAt := 2, completedAt := some 8 } ∧
    cancelPost
      [("done1",
        { jobId := "done1", originalFilename := "a.png",
          inputPath := "/uploads/a.png", outputPath := some "output/a.webp",
          inputFormat := "png", outputFormat := "webp",
          status := JobStatus.completed, progress := 100, error := none,
          createdAt := 2, completedAt := some 8 })] "done1" true true =
      ({ statusCode := 400, success := false,
         message := "Job is already completed",
         fileDeleted := none, jobStatus := none },
       [("done1",
         { jobId := "done1", originalFilename := "a.png",
           inputPath := "/uploads/a.png", outputPath := some "output/a.webp",
           inputFormat := "png", outputFormat := "webp",
           status := JobStatus.completed, progress := 100, error := none,
           createdAt := 2, completedAt := some 8 })]) :=
  ⟨by decide,
   C2_cancel_terminal_rejected
     [("done1",
       { jobId := "done1", originalFilename := "a.png",
         inputPath := "/uploads/a.png", outputPath := some "output/a.webp",
         inputFormat := "png", outputFormat := "webp",
         status := JobStatus.completed, progress := 100, error := none,
         createdAt := 2, completedAt := some 8 })] "done1"
     { jobId := "done1", originalFilename := "a.png",
       inputPath := "/uploads/a.png", outputPath := some "output/a.webp",
       inputFormat := "png", outputFormat := "webp",
       status := JobStatus.completed, progress := 100, error := none,
       createdAt := 2, completedAt := some 8 } true true
     (by decide) (by decide) (by decide)⟩

-- C3: completedAt on terminal transitions.

/-- C3 counterexample: the claim says `completedAt` is set at every terminal
transition.  On the code, the background task's failed branch and the
cancel endpoint both enter a terminal status while leaving `completedAt`
unset. -/
theorem C3_completedAt_cex :
    (applyOp (createJob "j3" "doc.pdf" "/uploads/doc.pdf" "pdf" "png" 4)
      (JobOp.bgFail "boom")).status = JobStatus.failed ∧
    isTerminalStatus JobStatus.failed = true ∧
    (applyOp (createJob "j3" "doc.pdf" "/uploads/doc.pdf" "pdf" "png" 4)
      (JobOp.bgFail "boom")).completedAt = none ∧
    (applyOp (createJob "j3" "doc.pdf" "/uploads/doc.pdf" "pdf" "png" 4)
      JobOp.cancelReq).status = JobStatus.cancelled ∧
    (applyOp (createJob "j3" "doc.pdf" "/uploads/doc.pdf" "pdf" "png" 4)
      JobOp.cancelReq).completedAt = none := by
  decide

/-- C3 amended: `completedAt` is set exactly by the background task's
completed and CancellationError transitions; the failed branch and the
cancel endpoint leave it unchanged (hence unset for a job that was still
processing). -/
theorem C3_completedAt_partial (job : ConversionJob) (path msg : String) (t : Nat) :
    (applyOp job (JobOp.bgComplete path t)).completedAt = some t ∧
    (applyOp job (JobOp.bgCancelErr t)).completedAt = some t ∧
    (applyOp job (JobOp.bgFail msg)).completedAt = job.completedAt ∧
    (applyOp job JobOp.cancelReq).completedAt = job.completedAt := by
  refine ⟨rfl, rfl, rfl, ?_⟩
  by_cases h : isTerminalStatus job.status <;> simp [applyOp, h]

-- C4: accepted conversion requests.

/-- A sequence of progress-callback writes changes only `progress`: the
status (and every other field) of the record is untouched. -/
theorem applyTrace_progressUpd_status (vs : List Int) :
    ∀ job : ConversionJob,
      (applyTrace job (vs.map JobOp.progressUpd)).status = job.status := by
  induction vs with
  | nil => intro job; rfl
  | cons v rest ih =>
      intro job
      simpa [applyTrace, applyOp] using ih { job with progress := v }

/-- C4 counterexample: the claim says an immediate GET /progress after an
accepted POST /convert reports `progress == 0`.  The background IIFE runs
synchronously up to its first await before the response is returned, and
for an image input `convertImage` has already reported progress 10 and 50
by then: for the accepted png-to-webp request the record observed
immediately after the response has progress 50, not 0. -/
theorem C4_progress_zero_cex :
    isConversionSupported (detectFileType "/uploads/photo.png") "webp" = true ∧
    convertImageSyncProgress = [10, 50] ∧
    progressGet (registryAtResponse [] "/uploads/photo.png" "webp"
        (fun _ => true) "id-1" 3 convertImageSyncProgress) "id-1" =
      { statusCode := 200, success := true, message := none,
        jobStatus := some (jobView (jobAtResponse "id-1" "photo.png"
          "/uploads/photo.png" "png" "webp" 3 convertImageSyncProgress)) } ∧
    (jobAtResponse "id-1" "photo.png" "/uploads/photo.png" "png" "webp" 3
      convertImageSyncProgress).status = JobStatus.processing ∧
    (jobAtResponse "id-1" "photo.png" "/uploads/photo.png" "png" "webp" 3
      convertImageSyncProgress).progress = 50 ∧
    ¬((jobAtResponse "id-1" "photo.png" "/uploads/photo.png" "png" "webp" 3
      convertImageSyncProgress).progress = 0) := by
  decide

/-- C4 amended: for every accepted pair, POST /convert answers 200 with the
fresh job id and, at the moment the response is returned, the record exists
and an immediate GET /progress serves it with `status == processing` —
whatever progress values the background task's synchronous prefix has
already reported.  The record is created with progress 0, but the observed
progress is the last synchronously reported value: still 0 for video inputs
(ffmpeg reports only from asynchronous handlers), already 50 for image
inputs, and 10 for document inputs that take neither pdf branch (docx). -/
theorem C4_response_reports_processing (reg : Registry)
    (filePath outputFormat : String) (fileExists : String → Bool)
    (newJobId : String) (now : Nat) (syncProgress : List Int)
    (hfp : filePath ≠ "") (hof : outputFormat ≠ "")
    (hex : fileExists filePath = true)
    (hsup : isConversionSupported (detectFileType filePath) outputFormat = true)
    (hfresh : lookupJob reg newJobId = none) (hjid : newJobId ≠ "") :
    (convertPost reg filePath outputFormat fileExists newJobId now).1 =
      { statusCode := 200, success := true, message := "Conversion started",
        supportedFormats := none, jobId := some newJobId } ∧
    lookupJob reg newJobId = none ∧
    progressGet (registryAtResponse reg filePath outputFormat fileExists
        newJobId now syncProgress) newJobId =
      { statusCode := 200, success := true, message := none,
        jobStatus := some (jobView (jobAtResponse newJobId
          (lastPathComponent filePath) filePath (detectFileType filePath)
          outputFormat now syncProgress)) } ∧
    (jobAtResponse newJobId (lastPathComponent filePath) filePath
      (detectFileType filePath) outputFormat now syncProgress).status =
      JobStatus.processing ∧
    (jobAtResponse newJobId (lastPathComponent filePath) filePath
      (detectFileType filePath) outputFormat now convertVideoSyncProgress).progress
      = 0 ∧
    (jobAtResponse newJobId (lastPathComponent filePath) filePath
      (detectFileType filePath) outputFormat now convertImageSyncProgress).progress
      = 50 ∧
    (jobAtResponse newJobId (lastPathComponent filePath) filePath
      (detectFileType filePath) outputFormat now
      convertDocumentNonPdfSyncProgress).progress = 10 := by
  have hresp : (convertPost reg filePath outputFormat fileExists newJobId now).1 =
      { statusCode := 200, success := true, message := "Conversion started",
        supportedFormats := none, jobId := some newJobId } := by
    simp [convertPost, hfp, hof, hex, hsup]
  refine ⟨hresp, hfresh, ?_, ?_, rfl, rfl, rfl⟩
  · unfold registryAtResponse
    rw [hresp]
    simp [progressGet, hjid, lookupJob_setJob_self]
  · unfold jobAtResponse
    rw [applyTrace_progressUpd_status]
    rfl

/-- Witness for the amended C4: a png-to-webp request in an empty registry,
with the image adapter's synchronous prefix. -/
theorem C4_response_reports_processing_witness :
    isConversionSupported (detectFileType "/uploads/photo.png") "webp" = true ∧
    lookupJob [] "id-1" = none ∧
    ((convertPost [] "/uploads/photo.png" "webp" (fun _ => true) "id-1" 3).1 =
      { statusCode := 200, success := true, message := "Conversion started",
        supportedFormats := none, jobId := some "id-1" } ∧
    lookupJob [] "id-1" = none ∧
    progressGet (registryAtResponse [] "/uploads/photo.png" "webp"
        (fun _ => true) "id-1" 3 convertImageSyncProgress) "id-1" =
      { statusCode := 200, success := true, message := none,
        jobStatus := some (jobView (jobAtResponse "id-1"
          (lastPathComponent "/uploads/photo.png") "/uploads/photo.png"
          (detectFileType "/uploads/photo.png") "webp" 3
          convertImageSyncProgress)) } ∧
    (jobAtResponse "id-1" (lastPathComponent "/uploads/photo.png")
      "/uploads/photo.png" (detectFileType "/uploads/photo.png") "webp" 3
      convertImageSyncProgress).status = JobStatus.processing ∧
    (jobAtResponse "id-1" (lastPathComponent "/uploads/photo.png")
      "/uploads/photo.png" (detectFileType "/uploads/photo.png") "webp" 3
      convertVideoSyncProgress).progress = 0 ∧
    (jobAtResponse "id-1" (lastPathComponent "/uploads/photo.png")
      "/uploads/photo.png" (detectFileType "/uploads/photo.png") "webp" 3
      convertImageSyncProgress).progress = 50 ∧
    (jobAtResponse "id-1" (lastPathComponent "/uploads/photo.png")
      "/uploads/photo.png" (detectFileType "/uploads/photo.png") "webp" 3
      convertDocumentNonPdfSyncProgress).progress = 10) :=
  ⟨by decide, by decide,
   C4_response_reports_processing [] "/uploads/photo.png" "webp"
     (fun _ => true) "id-1" 3 convertImageSyncProgress
     (by decide) (by decide) (by decide) (by decide) (by decide) (by decide)⟩


-- C5: unsupported conversion requests.

/-- C5: when the format pair is not supported, POST /convert answers 400
with the unsupported-conversion message and exactly
`getPossibleOutputFormats(inputFormat)` as `supportedFormats`, and the
registry is unchanged — no job record is created. -/
theorem C5_convert_unsupported (reg : Registry) (filePath outputFormat : String)
    (fileExists : String → Bool) (newJobId : String) (now : Nat)
    (hfp : filePath ≠ "") (hof : outputFormat ≠ "")
    (hex : fileExists filePath = true)
    (hunsup : isConversionSupported (detectFileType filePath) outputFormat = false) :
    convertPost reg filePath outputFormat fileExists newJobId now =
      ({ statusCode := 400, success := false,
         message := "Conversion from " ++ detectFileType filePath ++ " to "
           ++ outputFormat ++ " is not supported",
         supportedFormats := some (getPossibleOutputFormats (detectFileType filePath)),
         jobId := none }, reg) := by
  simp [convertPost, hfp, hof, hex, hunsup]

/-- Witness for C5, the spec's concrete scenario: gif to docx is rejected
with gif's actual output formats and no registry change. -/
theorem C5_convert_unsupported_witness :
    isConversionSupported (detectFileType "/uploads/anim.gif") "docx" = false ∧
    getPossibleOutputFormats "gif" = ["jpg", "jpeg", "png", "webp", "avif", "tiff"] ∧
    convertPost [] "/uploads/anim.gif" "docx" (fun _ => true) "id-2" 4 =
      ({ statusCode := 400, success := false,
         message := "Conversion from gif to docx is not supported",
         supportedFormats := some ["jpg", "jpeg", "png", "webp", "avif", "tiff"],
         jobId := none }, []) :=
  ⟨by decide, by decide, by
    have h := C5_convert_unsupported [] "/uploads/anim.gif" "docx"
      (fun _ => true) "id-2" 4 (by decide) (by decide) (by decide) (by decide)
    simpa using h⟩

-- C6: per-observer delivery isolation in the broadcaster.

/-- C6: publishing a progress event appends the `{jobId, progress}` payload
to every controller registered at publish time that does not itself throw,
independently of whether any other controller in the list throws: the
delivery to position `i` depends only on that controller. -/
theorem C6_publish_delivers (controllers : List SseController) (jobId : String)
    (progress : Int) (i : Nat) (c : SseController)
    (hc : controllers[i]? = some c) (hok : c.fails = false) :
    (sendProgressUpdate controllers jobId progress)[i]? =
      some { c with received := c.received ++ [(jobId, progress)] } := by
  simp [sendProgressUpdate, List.getElem?_map, hc, enqueueProgressEvent, hok]

/-- Witness for C6: the first observer throws, the second still receives the
event. -/
theorem C6_publish_delivers_witness :
    ([{ fails := true, received := [] },
      { fails := false, received := [] }] : List SseController)[1]? =
        some { fails := false, received := [] } ∧
    (sendProgressUpdate
      [{ fails := true, received := [] }, { fails := false, received := [] }]
      "j6" 40)[1]? =
      some { fails := false, received := [("j6", 40)] } :=
  ⟨by decide,
   C6_publish_delivers
     [{ fails := true, received := [] }, { fails := false, received := [] }]
     "j6" 40 1 { fails := false, received := [] } (by decide) (by decide)⟩

-- C7: range of the ffmpeg-derived progress values.

/-- C7 counterexample: the claim says every progress value handed to the
progress callback is clamped to 0..100.  The source computes
`Math.round((currentSeconds / durationSeconds) * 100)` with no clamp: a
stderr stream reporting `Duration: 00:00:01` and `time=00:00:02` produces
the value 200. -/
theorem C7_progress_clamp_cex :
    ffmpegChunkProgress 0 0 1 0 0 2 = some 200 ∧ ¬(200 ≤ 100) := by
  decide

/-- C7 amended: each reported value is the unclamped
`Math.round(100 * currentSeconds / durationSeconds)`; it is a nonnegative
integer by construction, and is at most 100 exactly in the normal case where
the parsed elapsed time does not exceed the parsed total duration — no
clamping is applied, so larger elapsed times yield values above 100. -/
theorem C7_progress_bounds (dh dm ds th tm ts v : Nat)
    (h : ffmpegChunkProgress dh dm ds th tm ts = some v) :
    v = jsRoundRatio (timestampSeconds th tm ts) (timestampSeconds dh dm ds) ∧
    (timestampSeconds th tm ts ≤ timestampSeconds dh dm ds → v ≤ 100) := by
  by_cases hd : timestampSeconds dh dm ds > 0
  · have hv : v = jsRoundRatio (timestampSeconds th tm ts)
        (timestampSeconds dh dm ds) := by
      simp [ffmpegChunkProgress, hd] at h
      exact h.symm
    refine ⟨hv, ?_⟩
    intro hcd
    have h101 : (200 * timestampSeconds th tm ts + timestampSeconds dh dm ds)
        / (2 * timestampSeconds dh dm ds) < 101 := by
      rw [Nat.div_lt_iff_lt_mul (by omega)]
      omega
    have : v < 101 := by
      rw [hv]
      unfold jsRoundRatio
      exact h101
    omega
  · simp [ffmpegChunkProgress, hd] at h

/-- Witness for the amended C7: duration 2s, elapsed 1s gives 50. -/
theorem C7_progress_bounds_witness :
    ffmpegChunkProgress 0 0 2 0 0 1 = some 50 ∧
    (50 = jsRoundRatio (timestampSeconds 0 0 1) (timestampSeconds 0 0 2) ∧
     (timestampSeconds 0 0 1 ≤ timestampSeconds 0 0 2 → 50 ≤ 100)) :=
  ⟨by decide, C7_progress_bounds 0 0 2 0 0 1 50 (by decide)⟩

-- C8: PDF-to-image conversion never dead-ends.

/-- C8: for every PDF input and image target format, `convertDocument`
returns an output path instead of throwing, whatever the tool environment
does; and when every external tool (pdftoppm, gs, pdfimages, convert,
wkhtmltoimage) is unavailable, the output file it writes is exactly the
minimal statically-known valid image byte sequence for the target format. -/
theorem C8_pdf_to_image_never_throws (env : ToolEnv)
    (inputPath outputFormat : String) (extractAllPages : Bool)
    (hfmt : documentImageFormats.contains outputFormat = true)
    (hpdf : lowerEndsWithPdf inputPath = true) :
    (∃ out, convertDocument env inputPath outputFormat extractAllPages =
      Except.ok out) ∧
    (allToolsUnavailable env = true →
      convertDocument env inputPath outputFormat extractAllPages =
        Except.ok (mkOutputPath inputPath outputFormat,
          FileContent.rawBytes (getMinimalValidImageBytes outputFormat))) := by
  have hne : outputFormat ≠ "pdf" := by
    intro hcontra
    subst hcontra
    simp [documentImageFormats] at hfmt
  constructor
  · unfold convertDocument
    rw [if_neg (by simp [hne]), if_pos ⟨hfmt, hpdf⟩]
    by_cases hA : (extractAllPages = true ∧
        (if env.gsAvail = true then env.pageCountResult else 1) > 1)
    · rw [if_pos hA]
      cases hm : processMultiPagePdf env with
      | ok c => exact ⟨_, rfl⟩
      | error e => exact ⟨_, rfl⟩
    · rw [if_neg hA]
      by_cases hT : tryPdfToImageConversion env outputFormat = true
      · rw [if_pos hT]; exact ⟨_, rfl⟩
      · rw [if_neg hT]; exact ⟨_, rfl⟩
  · intro hall
    simp only [allToolsUnavailable, Bool.and_eq_true, Bool.not_eq_true'] at hall
    obtain ⟨⟨⟨⟨h1, h2⟩, h3⟩, h4⟩, h5⟩ := hall
    unfold convertDocument
    rw [if_neg (by simp [hne]), if_pos ⟨hfmt, hpdf⟩]
    rw [if_neg (by simp [h2])]
    rw [if_neg (by simp [tryPdfToImageConversion, h1, h2, h3])]
    simp [createFallbackImageContent, h4, h5]

/-- Witness for C8: converting a pdf to png with no tool installed yields
the minimal valid PNG bytes. -/
theorem C8_pdf_to_image_never_throws_witness :
    documentImageFormats.contains "png" = true ∧
    lowerEndsWithPdf "/uploads/report.pdf" = true ∧
    ((∃ out, convertDocument
        { pdftoppmAvail := false, gsAvail := false, pdfimagesAvail := false,
          convertAvail := false, wkhtmltoimageAvail := false, zipAvail := false,
          tarAvail := false, gzipAvail := false, pdftoppmOk := false,
          pdftoppmAltOk := false, gsOk := false, pdfimagesOk := false,
          convertOk := false, wkhtmltoimageOk := false, zipOk := false,
          tarGzipOk := false, pageCountResult := 1, multiPageThrows := false }
        "/uploads/report.pdf" "png" true = Except.ok out) ∧
    (allToolsUnavailable
        { pdftoppmAvail := false, gsAvail := false, pdfimagesAvail := false,
          convertAvail := false, wkhtmltoimageAvail := false, zipAvail := false,
          tarAvail := false, gzipAvail := false, pdftoppmOk := false,
          pdftoppmAltOk := false, gsOk := false, pdfimagesOk := false,
          convertOk := false, wkhtmltoimageOk := false, zipOk := false,
          tarGzipOk := false, pageCountResult := 1, multiPageThrows := false } = true →
      convertDocument
        { pdftoppmAvail := false, gsAvail := false, pdfimagesAvail := false,
          convertAvail := false, wkhtmltoimageAvail := false, zipAvail := false,
          tarAvail := false, gzipAvail := false, pdftoppmOk := false,
          pdftoppmAltOk := false, gsOk := false, pdfimagesOk := false,
          convertOk := false, wkhtmltoimageOk := false, zipOk := false,
          tarGzipOk := false, pageCountResult := 1, multiPageThrows := false }
        "/uploads/report.pdf" "png" true =
        Except.ok (mkOutputPath "/uploads/report.pdf" "png",
          FileContent.rawBytes (getMinimalValidImageBytes "png")))) :=
  ⟨by decide, by decide,
   C8_pdf_to_image_never_throws
     { pdftoppmAvail := false, gsAvail := false, pdfimagesAvail := false,
       convertAvail := false, wkhtmltoimageAvail := false, zipAvail := false,
       tarAvail := false, gzipAvail := false, pdftoppmOk := false,
       pdftoppmAltOk := false, gsOk := false, pdfimagesOk := false,
       convertOk := false, wkhtmltoimageOk := false, zipOk := false,
       tarGzipOk := false, pageCountResult := 1, multiPageThrows := false }
     "/uploads/report.pdf" "png" true (by decide) (by decide)⟩

-- C10: docx inputs are accepted but can never complete.

theorem lowerChar_dot : lowerChar '.' = '.' := by decide

theorem ne_dot_of_lowerChar {c d : Char} (h : lowerChar c = d) (hd : d ≠ '.') :
    c ≠ '.' := by
  intro hc
  subst hc
  rw [lowerChar_dot] at h
  exact hd h.symm

/-- A path whose detected file type is `docx` does not satisfy the
`inputPath.toLowerCase().endsWith('.pdf')` test of `convertDocument`. -/
theorem detectFileType_docx_not_pdf (p : String)
    (h : detectFileType p = "docx") : lowerEndsWithPdf p = false := by
  have hdl : (afterLastChar '.' p.data).map lowerChar = "docx".data :=
    congrArg String.data h
  cases hb : lowerEndsWithPdf p
  · rfl
  · exfalso
    have hsuf : (".pdf".data) <:+ (p.data.map lowerChar) := by
      apply List.isSuffixOf_iff_suffix.mp
      unfold lowerEndsWithPdf at hb
      exact hb
    obtain ⟨r, hr⟩ := hsuf
    have hr' : p.data.map lowerChar = r ++ ".pdf".data := hr.symm
    rw [List.map_eq_append_iff] at hr'
    obtain ⟨l₁, l₂, hp, _, hm2⟩ := hr'
    rw [show (".pdf".data) = ['.', 'p', 'd', 'f'] from rfl] at hm2
    rw [List.map_eq_cons_iff] at hm2
    obtain ⟨c1, t1, e1, hc1, hm2⟩ := hm2
    rw [List.map_eq_cons_iff] at hm2
    obtain ⟨c2, t2, e2, hc2, hm2⟩ := hm2
    rw [List.map_eq_cons_iff] at hm2
    obtain ⟨c3, t3, e3, hc3, hm2⟩ := hm2
    rw [List.map_eq_cons_iff] at hm2
    obtain ⟨c4, t4, e4, hc4, hm2⟩ := hm2
    have ht4 : t4 = [] := by simpa using hm2
    subst ht4
    subst e4
    subst e3
    subst e2
    subst e1
    rw [hp] at hdl
    have hne4 : c4 ≠ '.' := ne_dot_of_lowerChar hc4 (by decide)
    have hne3 : c3 ≠ '.' := ne_dot_of_lowerChar hc3 (by decide)
    have hne2 : c2 ≠ '.' := ne_dot_of_lowerChar hc2 (by decide)
    by_cases hc1d : c1 = '.'
    · subst hc1d
      have hext : afterLastChar '.' (l₁ ++ ['.', c2, c3, c4]) = [c2, c3, c4] := by
        unfold afterLastChar
        rw [List.reverse_append]
        simp [List.takeWhile_cons, hne4, hne3, hne2]
      rw [hext] at hdl
      have := congrArg List.length hdl
      simp at this
    · have hext : afterLastChar '.' (l₁ ++ [c1, c2, c3, c4]) =
          (l₁.reverse.takeWhile (fun c => c ≠ '.')).reverse ++ [c1, c2, c3, c4] := by
        unfold afterLastChar
        rw [List.reverse_append]
        simp [List.takeWhile_cons, hne4, hne3, hne2, hc1d]
      rw [hext, List.map_append] at hdl
      have hlen := congrArg List.length hdl
      simp at hlen
      have hX : ((l₁.reverse.takeWhile (fun c => c ≠ '.')).reverse.map lowerChar) = [] := by
        rw [← List.length_eq_zero]
        simpa using hlen
      rw [hX] at hdl
      simp [hc1, hc2, hc3, hc4] at hdl

/-- C10: the format registry lists docx as a supported input (with outputs
pdf, jpg, jpeg, png, webp), so POST /convert accepts a docx request and
creates a processing job; but `convertDocument` throws its
not-supported-yet error for every input whose detected type is docx, in
every tool environment, so the background task always finishes such a job
as `failed` — it can never reach `completed`. -/
theorem C10_docx_always_fails (outputFormat : String) (reg : Registry)
    (filePath : String) (fileExists : String → Bool) (newJobId : String)
    (now t : Nat) (env : ToolEnv) (extractAllPages : Bool)
    (job : ConversionJob)
    (hsup : isConversionSupported "docx" outputFormat = true)
    (hdet : detectFileType filePath = "docx")
    (hfp : filePath ≠ "") (hof : outputFormat ≠ "")
    (hex : fileExists filePath = true) :
    getPossibleOutputFormats "docx" = ["pdf", "jpg", "jpeg", "png", "webp"] ∧
    (convertPost reg filePath outputFormat fileExists newJobId now).1 =
      { statusCode := 200, success := true, message := "Conversion started",
        supportedFormats := none, jobId := some newJobId } ∧
    lookupJob (convertPost reg filePath outputFormat fileExists newJobId now).2
        newJobId =
      some (createJob newJobId (lastPathComponent filePath) filePath "docx"
        outputFormat now) ∧
    convertDocument env filePath outputFormat extractAllPages =
      Except.error (ConvError.err ("Conversion from " ++ extnameOf filePath
        ++ " to " ++ outputFormat ++ " is not supported yet")) ∧
    (bgFinish job (convertDocument env filePath outputFormat extractAllPages)
      t).status = JobStatus.failed := by
  have hnp : lowerEndsWithPdf filePath = false :=
    detectFileType_docx_not_pdf filePath hdet
  have hdoc : convertDocument env filePath outputFormat extractAllPages =
      Except.error (ConvError.err ("Conversion from " ++ extnameOf filePath
        ++ " to " ++ outputFormat ++ " is not supported yet")) := by
    unfold convertDocument
    rw [if_neg (by simp [hnp]), if_neg (by simp [hnp])]
  refine ⟨by decide, ?_, ?_, hdoc, ?_⟩
  · simp [convertPost, hfp, hof, hex, hdet, hsup]
  · simp [convertPost, hfp, hof, hex, hdet, hsup, lookupJob_setJob_self]
  · rw [hdoc]
    simp [bgFinish, applyOp]

/-- Witness for C10: a docx-to-png request in a tool-free environment. -/
theorem C10_docx_always_fails_witness :
    isConversionSupported "docx" "png" = true ∧
    detectFileType "/uploads/report.docx" = "docx" ∧
    (getPossibleOutputFormats "docx" = ["pdf", "jpg", "jpeg", "png", "webp"] ∧
    (convertPost [] "/uploads/report.docx" "png" (fun _ => true) "id-3" 5).1 =
      { statusCode := 200, success := true, message := "Conversion started",
        supportedFormats := none, jobId := some "id-3" } ∧
    lookupJob (convertPost [] "/uploads/report.docx" "png" (fun _ => true)
        "id-3" 5).2 "id-3" =
      some (createJob "id-3" (lastPathComponent "/uploads/report.docx")
        "/uploads/report.docx" "docx" "png" 5) ∧
    convertDocument
      { pdftoppmAvail := false, gsAvail := false, pdfimagesAvail := false,
        convertAvail := false, wkhtmltoimageAvail := false, zipAvail := false,
        tarAvail := false, gzipAvail := false, pdftoppmOk := false,
        pdftoppmAltOk := false, gsOk := false, pdfimagesOk := false,
        convertOk := false, wkhtmltoimageOk := false, zipOk := false,
        tarGzipOk := false, pageCountResult := 1, multiPageThrows := false }
      "/uploads/report.docx" "png" true =
      Except.error (ConvError.err ("Conversion from "
        ++ extnameOf "/uploads/report.docx" ++ " to png is not supported yet")) ∧
    (bgFinish (createJob "id-3" "report.docx" "/uploads/report.docx" "docx" "png" 5)
      (convertDocument
        { pdftoppmAvail := false, gsAvail := false, pdfimagesAvail := false,
          convertAvail := false, wkhtmltoimageAvail := false, zipAvail := false,
          tarAvail := false, gzipAvail := false, pdftoppmOk := false,
          pdftoppmAltOk := false, gsOk := false, pdfimagesOk := false,
          convertOk := false, wkhtmltoimageOk := false, zipOk := false,
          tarGzipOk := false, pageCountResult := 1, multiPageThrows := false }
        "/uploads/report.docx" "png" true) 7).status = JobStatus.failed) :=
  ⟨by decide, by decide,
   C10_docx_always_fails "png" [] "/uploads/report.docx" (fun _ => true) "id-3"
     5 7
     { pdftoppmAvail := false, gsAvail := false, pdfimagesAvail := false,
       convertAvail := false, wkhtmltoimageAvail := false, zipAvail := false,
       tarAvail := false, gzipAvail := false, pdftoppmOk := false,
       pdftoppmAltOk := false, gsOk := false, pdfimagesOk := false,
       convertOk := false, wkhtmltoimageOk := false, zipOk := false,
       tarGzipOk := false, pageCountResult := 1, multiPageThrows := false }
     true (createJob "id-3" "report.docx" "/uploads/report.docx" "docx" "png" 5)
     (by decide) (by decide) (by decide) (by decide) (by decide)⟩
